import Mathlib

/-!
Shallow embedding of the authentication / session / security-event core of
the `lwie-dashboard` backend, with theorems checking the natural-language
specification against the code.

Embedded source files:
* `src/middleware/rateLimiter.js` — fixed-window Redis rate limiter.
* `src/utils/ssr-helpers.ts` (audit-logger section, `createAuditLog`) — the
  audit / security-event pipeline.
* `src/unnamed/part_002` — `sessionManager` (createSession / validateSession /
  invalidateSession / refreshSession).
* `src/middleware/socketAuth.js` — socket handshake authentication.
* `src/routes/items.js` `POST /login`, `src/routes/manager-auth.js` — login and
  refresh-token route handlers.
* `src/unnamed/part_013` — auth middleware (authenticateRefreshToken).

Conventions: time is in whole seconds (`Nat`); Redis stores are modelled as
functions from keys to optional entries; fallible external operations carry
explicit success flags in an environment record, mirroring the JavaScript
`try`/`catch` structure of each function.
-/

namespace LwieDashboard

/-! ## Rate limiter (`src/middleware/rateLimiter.js`)

`createRateLimiter({windowMs, max, keyPrefix, message})` returns a middleware
that: GETs `keyPrefix + req.ip`; if a count is present and `>= max`, responds
429 with `retryAfter = Math.ceil(windowMs / 1000)`; otherwise INCRs the key if
it existed, or SETs it to 1 with `EX = Math.ceil(windowMs / 1000)`; any Redis
error is caught and the request is allowed through (`next()`).
-/

/-- Configuration of one limiter: the options object of `createRateLimiter`. -/
structure RLConfig where
  windowMs : Nat
  max : Nat
  keyPrefix : String
  message : String
deriving Repr, DecidableEq

/-- One Redis counter entry: the stored count and the remaining TTL of the key
in seconds. -/
structure RLEntry where
  count : Nat
  ttl : Nat
deriving Repr, DecidableEq

/-- State of the Redis counter store, with fault-injection flags modelling an
unreachable store: when a flag is set, the corresponding operation raises. -/
structure RedisState where
  entries : String → Option RLEntry
  failGet : Bool
  failIncr : Bool
  failSet : Bool

/-- The Redis commands the limiter issues, in order (its operation trace). -/
inductive RedisOp where
  | get (key : String)
  | incr (key : String)
  | setEx (key : String) (value : Nat) (ttlSec : Nat)
deriving Repr, DecidableEq

/-- Outcome of the middleware for one request: call `next()` or respond 429. -/
inductive RLOutcome where
  | allowed
  | denied (message : String) (retryAfter : Nat)
deriving Repr, DecidableEq

/-- Result of one middleware invocation: the outcome, the store afterwards,
the trace of Redis commands issued, and whether a Redis operation raised. -/
structure RLResult where
  outcome : RLOutcome
  state : RedisState
  trace : List RedisOp
  erred : Bool

/-- Point update of a counter-store function. -/
def setEntry (e : String → Option RLEntry) (k : String) (v : RLEntry) :
    String → Option RLEntry :=
  fun k2 => if k2 = k then some v else e k2

/-- `Math.ceil(windowMs / 1000)` on naturals. -/
def ceilSec (windowMs : Nat) : Nat := (windowMs + 999) / 1000

/-- The body of the middleware returned by `createRateLimiter`
(`src/middleware/rateLimiter.js`, lines 18–48), for one request from `ip`.
A raised Redis operation is caught by the surrounding `try`/`catch`, which
logs and calls `next()` (the request is allowed). An INCR does not change the
key's TTL, matching Redis `INCR`. -/
def rateLimiterHandle (cfg : RLConfig) (st : RedisState) (ip : String) : RLResult :=
  if st.failGet then
    { outcome := .allowed, state := st, trace := [.get (cfg.keyPrefix ++ ip)], erred := true }
  else
    match st.entries (cfg.keyPrefix ++ ip) with
    | some entry =>
      if cfg.max ≤ entry.count then
        { outcome := .denied cfg.message (ceilSec cfg.windowMs), state := st,
          trace := [.get (cfg.keyPrefix ++ ip)], erred := false }
      else if st.failIncr then
        { outcome := .allowed, state := st,
          trace := [.get (cfg.keyPrefix ++ ip), .incr (cfg.keyPrefix ++ ip)], erred := true }
      else
        { outcome := .allowed,
          state := { st with entries := (setEntry st.entries (cfg.keyPrefix ++ ip)
                      { entry with count := entry.count + 1 }) },
          trace := [.get (cfg.keyPrefix ++ ip), .incr (cfg.keyPrefix ++ ip)], erred := false }
    | none =>
      if st.failSet then
        { outcome := .allowed, state := st,
          trace := [.get (cfg.keyPrefix ++ ip),
                    .setEx (cfg.keyPrefix ++ ip) 1 (ceilSec cfg.windowMs)], erred := true }
      else
        { outcome := .allowed,
          state := { st with entries := (setEntry st.entries (cfg.keyPrefix ++ ip)
                      { count := 1, ttl := ceilSec cfg.windowMs }) },
          trace := [.get (cfg.keyPrefix ++ ip),
                    .setEx (cfg.keyPrefix ++ ip) 1 (ceilSec cfg.windowMs)], erred := false }

/-- A healthy, empty counter store. -/
def emptyRedis : RedisState :=
  { entries := fun _ => none, failGet := false, failIncr := false, failSet := false }

/-- `loginRateLimiter` (`rateLimiter.js` lines 52–57): 5 per 5 minutes. -/
def loginRateLimiter : RLConfig :=
  { windowMs := 5 * 60 * 1000, max := 5, keyPrefix := "rl:login:",
    message := "Too many login attempts, please try again after 5 minutes" }

/-- `passwordResetRateLimiter` (`rateLimiter.js` lines 59–64): 3 per hour. -/
def passwordResetRateLimiter : RLConfig :=
  { windowMs := 60 * 60 * 1000, max := 3, keyPrefix := "rl:pwreset:",
    message := "Too many password reset attempts, please try again after an hour" }

/-- `apiRateLimiter` (`rateLimiter.js` lines 66–71): 60 per minute. -/
def apiRateLimiter : RLConfig :=
  { windowMs := 60 * 1000, max := 60, keyPrefix := "rl:api:",
    message := "Too many API requests, please try again later" }

/-- The separate `loginLimiter` built with `express-rate-limit` in
`src/routes/manager-auth.js` lines 14–20: 5 per 15 minutes (only its
(window, max) pair is modelled). -/
def managerLoginLimiter : RLConfig :=
  { windowMs := 15 * 60 * 1000, max := 5, keyPrefix := "",
    message := "Too many login attempts from this IP, please try again after 15 minutes" }

/-- Every stored counter is at most the configured maximum. -/
def maxInv (cfg : RLConfig) (st : RedisState) : Prop :=
  ∀ k e, st.entries k = some e → e.count ≤ cfg.max

/-- Sequential execution of the middleware over a list of request IPs,
threading the store state. -/
def runSeq (cfg : RLConfig) (ips : List String) (st : RedisState) : RedisState :=
  ips.foldl (fun s ip => (rateLimiterHandle cfg s ip).state) st

/-! ## Audit / security-event pipeline (`src/utils/ssr-helpers.ts`, audit-logger
section, `createAuditLog`)

`createAuditLog({action, userId, details, ip})` runs inside one `try`/`catch`:
INSERT the row into `audit_logs` RETURNING id; if the action is in the
`significantActions` list, LPUSH the event JSON onto the Redis list
`admin:notifications`, LTRIM that list to indices 0–99, and PUBLISH the event
on the `admin:notifications` channel; return the new id. Any raise anywhere in
the block falls into the `catch`, which logs and returns `null`. -/

/-- One audit event as stored durably and mirrored to Redis (the structured
`details`/`ip` payload fields are elided: no claim inspects them). -/
structure AuditEvent where
  id : Nat
  action : String
  userId : Option Nat
deriving Repr, DecidableEq

/-- Success flags for the external operations `createAuditLog` performs, plus
the id the database would assign to the inserted row. A `false` flag means
that operation raises. -/
structure AuditEnv where
  insertOk : Bool
  nextId : Nat
  lpushOk : Bool
  ltrimOk : Bool
  publishOk : Bool
deriving Repr, DecidableEq

/-- Observable state the pipeline writes to: the durable `audit_logs` table,
the `admin:notifications` Redis list (head = most recently pushed), and the
messages published on the `admin:notifications` channel. -/
structure AuditState where
  log : List AuditEvent
  buffer : List AuditEvent
  published : List AuditEvent
deriving Repr, DecidableEq

/-- The `significantActions` list of `createAuditLog` (`ssr-helpers.ts`
lines 133–142). -/
def significantActions : List String :=
  ["LOGIN_FAILED", "MFA_FAILED", "UNAUTHORIZED_ACCESS", "USER_ROLE_CHANGED",
   "USER_APPROVED", "USER_DEACTIVATED", "ITEM_REJECTED", "SECURITY_ALERT"]

/-- `createAuditLog` (`ssr-helpers.ts` lines 124–179). Returns the value the
call resolves to (`some id` or `none` for `null`) together with the state
after the call. Each failed operation raises into the single surrounding
`catch`, so effects already performed are kept and `none` is returned. -/
def createAuditLog (env : AuditEnv) (st : AuditState) (action : String)
    (userId : Option Nat) : Option Nat × AuditState :=
  if env.insertOk = false then
    (none, st)
  else
    let ev : AuditEvent := { id := env.nextId, action := action, userId := userId }
    let st1 := { st with log := st.log ++ [ev] }
    if action ∈ significantActions then
      if env.lpushOk = false then
        (none, st1)
      else
        let st2 := { st1 with buffer := ev :: st1.buffer }
        if env.ltrimOk = false then
          (none, st2)
        else
          let st3 := { st2 with buffer := st2.buffer.take 100 }
          if env.publishOk = false then
            (none, st3)
          else
            (some env.nextId, { st3 with published := st3.published ++ [ev] })
    else
      (some env.nextId, st1)

/-- An empty audit state: nothing logged, buffered or published. -/
def emptyAudit : AuditState := { log := [], buffer := [], published := [] }

/-- An environment in which every external operation succeeds. -/
def allOkEnv (nextId : Nat) : AuditEnv :=
  { insertOk := true, nextId := nextId, lpushOk := true, ltrimOk := true,
    publishOk := true }

/-- An environment in which everything but the channel publish succeeds. -/
def pubFailEnv (nextId : Nat) : AuditEnv :=
  { insertOk := true, nextId := nextId, lpushOk := true, ltrimOk := true,
    publishOk := false }

/-! ## Login handlers: which audit action each failure path records

`src/routes/items.js` `POST /login` (lines 1331–1438): unknown account,
inactive/unapproved account and invalid password each call `createAuditLog`
with action `"FAILED_LOGIN"`; success records `"LOGIN"`.

`src/routes/manager-auth.js` `POST /login` (lines 48–142): unknown/non-manager
account, inactive and unapproved paths record no audit event at all; invalid
password records `"MANAGER_LOGIN_FAILED"`; success records
`"MANAGER_LOGIN_SUCCESS"`. -/

/-- The user-row fields the login handlers branch on. -/
structure UserRow where
  id : Nat
  isActive : Bool
  isApproved : Bool
deriving Repr, DecidableEq

/-- The audit action recorded by `POST /api/auth/login` in `items.js`, given
the user lookup result and whether `bcrypt.compare` accepted the password.
`none` would mean no audit call; every branch of this handler records one. -/
def loginAuditAction (lookup : Option UserRow) (passwordOk : Bool) : Option String :=
  match lookup with
  | none => some "FAILED_LOGIN"
  | some u =>
    if u.isActive = false ∨ u.isApproved = false then some "FAILED_LOGIN"
    else if passwordOk = false then some "FAILED_LOGIN"
    else some "LOGIN"

/-- The audit action recorded by `POST /api/manager/auth/login` in
`manager-auth.js` (lookup is already filtered to `role = 'manager'`).
`none` means the branch records no audit event. -/
def managerLoginAuditAction (lookup : Option UserRow) (passwordOk : Bool) :
    Option String :=
  match lookup with
  | none => none
  | some u =>
    if u.isActive = false then none
    else if u.isApproved = false then none
    else if passwordOk = false then some "MANAGER_LOGIN_FAILED"
    else some "MANAGER_LOGIN_SUCCESS"

/-! ## JWTs, session cache, session manager (`src/unnamed/part_002`),
socket auth (`src/middleware/socketAuth.js`), manager refresh route
(`src/routes/manager-auth.js` lines 167–224)

A JWT is modelled as its decoded payload plus the secret it was signed with
and the embedded expiry (`exp`, absolute seconds). `jwt.sign(payload, secret,
{expiresIn})` sets `exp = now + ttl`; `jwt.verify(token, secret)` succeeds iff
the secrets match and `now < exp` (jsonwebtoken raises `TokenExpiredError`
once the clock reaches `exp`). Cache keys `session:<token>` are modelled by
indexing the cache with the token value itself. -/

/-- A signed token: decoded payload (`userId`, optional `role` claim), the
embedded expiry, and the signing secret. -/
structure Jwt where
  userId : Nat
  role : Option String
  exp : Nat
  secret : String
deriving Repr, DecidableEq

/-- The access-token signing secret (`process.env.JWT_SECRET`). -/
def accessSecret : String := "JWT_SECRET"

/-- The refresh-token signing secret (`process.env.JWT_REFRESH_SECRET`). -/
def refreshSecret : String := "JWT_REFRESH_SECRET"

/-- `jwt.sign(payload, secret, { expiresIn: ttl })` at time `now`. -/
def jwtSign (userId : Nat) (role : Option String) (secret : String)
    (now ttl : Nat) : Jwt :=
  { userId := userId, role := role, exp := now + ttl, secret := secret }

/-- `jwt.verify(token, secret)` at time `now`: the decoded payload, or `none`
when the signature check or the expiry check fails (both raise in the JS). -/
def jwtVerify (t : Jwt) (secret : String) (now : Nat) : Option Jwt :=
  if t.secret = secret ∧ now < t.exp then some t else none

/-- The JSON value stored under `session:<accessToken>`: `userId`, `role`, and
the spread `additionalData` profile fields (collapsed to one string; `""`
models an absent spread). -/
structure SessionRecord where
  userId : Nat
  role : Option String
  extra : String
deriving Repr, DecidableEq

/-- A cache entry: the session record and the absolute time at which the
Redis key expires (set time + `EX`). -/
structure CacheEntry where
  record : SessionRecord
  expiresAt : Nat
deriving Repr, DecidableEq

/-- The session cache, keyed by access token (standing for the Redis key
`session:<accessToken>`). -/
def Cache := Jwt → Option CacheEntry

/-- Redis `GET` at time `now`: an entry whose TTL has elapsed is gone. -/
def cacheGet (c : Cache) (k : Jwt) (now : Nat) : Option SessionRecord :=
  match c k with
  | some e => if now < e.expiresAt then some e.record else none
  | none => none

/-- Redis `SET key value EX ttl` at time `now`. -/
def cacheSet (c : Cache) (k : Jwt) (r : SessionRecord) (ttl now : Nat) : Cache :=
  fun k2 => if k2 = k then some { record := r, expiresAt := now + ttl } else c k2

/-- The cache with no entries. -/
def emptyCache : Cache := fun _ => none

/-- The token pair returned by `sessionManager.createSession`. -/
structure SessionTokens where
  accessToken : Jwt
  refreshToken : Jwt
deriving Repr, DecidableEq

/-- `sessionManager.createSession(userId, role, additionalData)`
(`part_002` lines 15–28) at time `now`: sign a 15-minute access token and a
7-day refresh token, store `{userId, role, ...additionalData}` under
`session:<accessToken>` with `EX: 900`, and return both tokens. -/
def createSession (now userId : Nat) (role : Option String) (extra : String)
    (cache : Cache) : SessionTokens × Cache :=
  let access := jwtSign userId none accessSecret now 900
  let refresh := jwtSign userId none refreshSecret now (7 * 24 * 3600)
  (⟨access, refresh⟩,
   cacheSet cache access { userId := userId, role := role, extra := extra } 900 now)

/-- `sessionManager.validateSession(accessToken)` (`part_002` lines 35–50):
cache hit returns the stored record; on a miss, fall back to verifying the
JWT and return a degraded record carrying only the `userId`; any raise is
caught and `null` is returned. -/
def validateSession (cache : Cache) (now : Nat) (t : Jwt) : Option SessionRecord :=
  match cacheGet cache t now with
  | some r => some r
  | none =>
    match jwtVerify t accessSecret now with
    | some d => some { userId := d.userId, role := none, extra := "" }
    | none => none

/-- `sessionManager.refreshSession(refreshToken, userData)` (`part_002`
lines 66–81): verify the refresh token against `JWT_REFRESH_SECRET`; on
success mint a fresh session via `createSession` with the decoded `userId`
and the caller-supplied `userData`; any raise is caught and
`Error("Invalid refresh token")` is thrown. The Refresh Ledger is not
consulted by this function. -/
def refreshSession (now : Nat) (tok : Jwt) (role : Option String)
    (extra : String) (cache : Cache) : Except String (SessionTokens × Cache) :=
  match jwtVerify tok refreshSecret now with
  | some d => .ok (createSession now d.userId role extra cache)
  | none => .error "Invalid refresh token"

/-- Outcome of the socket handshake middleware. -/
inductive SocketAuthResult where
  | ok (userId : Nat) (role : Option String)
  | errNoToken
  | errInvalid
deriving Repr, DecidableEq

/-- `socketAuthMiddleware` (`src/middleware/socketAuth.js`): on a cache hit
attach the cached record; on a miss verify the JWT and, if valid, re-cache
`{userId, role}` under `session:<token>` with a fresh `EX` of 900 seconds;
otherwise fail the handshake. Returns the outcome and the cache afterwards. -/
def socketAuthMiddleware (cache : Cache) (now : Nat) (token : Option Jwt) :
    SocketAuthResult × Cache :=
  match token with
  | none => (.errNoToken, cache)
  | some t =>
    match cacheGet cache t now with
    | some r => (.ok r.userId r.role, cache)
    | none =>
      match jwtVerify t accessSecret now with
      | some d =>
        (.ok d.userId d.role,
         cacheSet cache t { userId := d.userId, role := d.role, extra := "" } 900 now)
      | none => (.errInvalid, cache)

/-! ### Manager refresh-token route and refresh ledger -/

/-- A row of the durable `refresh_tokens` table. -/
structure RefreshRow where
  userId : Nat
  token : Jwt
  expiresAt : Nat
deriving Repr, DecidableEq

/-- A row of the `users` table, as read by the refresh route. -/
structure RouteUser where
  id : Nat
  role : String
  isActive : Bool
  isApproved : Bool
deriving Repr, DecidableEq

/-- Response of the refresh route: HTTP status and the new access token, if
one was minted. -/
structure RefreshResponse where
  status : Nat
  minted : Option Jwt
deriving Repr, DecidableEq

/-- `POST /api/manager/auth/refresh-token` (`manager-auth.js` lines 167–224):
look the token up in `refresh_tokens` filtered by `expires_at > NOW()`; if no
row, 401. Then `jwt.verify`; on failure DELETE the rows for that token and
401. Then load the user requiring manager/active/approved; if absent, 401.
Otherwise sign a fresh 15-minute access token, cache its session record with
`EX` 900, and return it with 200. -/
def managerRefreshRoute (now : Nat) (ledger : List RefreshRow)
    (users : List RouteUser) (cache : Cache) (tok : Jwt) :
    RefreshResponse × Cache × List RefreshRow :=
  if (ledger.filter (fun r => decide (r.token = tok) && decide (now < r.expiresAt))).isEmpty then
    (⟨401, none⟩, cache, ledger)
  else
    match jwtVerify tok refreshSecret now with
    | none =>
      (⟨401, none⟩, cache, ledger.filter (fun r => !decide (r.token = tok)))
    | some d =>
      match users.find? (fun u =>
          decide (u.id = d.userId) && decide (u.role = "manager")
            && u.isActive && u.isApproved) with
      | none => (⟨401, none⟩, cache, ledger)
      | some u =>
        let access := jwtSign u.id (some "manager") accessSecret now 900
        (⟨200, some access⟩,
         cacheSet cache access { userId := u.id, role := some "manager", extra := "" } 900 now,
         ledger)

/-! ## Theorems: rate limiter -/

/-- Claim C6: whenever any Redis operation raises during a rate-limiter
invocation, the middleware allows the request to proceed (fails open) instead
of rejecting it or propagating the error. -/
theorem rateLimiter_fails_open (cfg : RLConfig) (st : RedisState) (ip : String)
    (h : (rateLimiterHandle cfg st ip).erred = true) :
    (rateLimiterHandle cfg st ip).outcome = RLOutcome.allowed := by
  cases hg : st.failGet with
  | true => simp [rateLimiterHandle, hg]
  | false =>
    cases hE : st.entries (cfg.keyPrefix ++ ip) with
    | none =>
      cases hs : st.failSet with
      | true => simp [rateLimiterHandle, hg, hE, hs]
      | false => simp [rateLimiterHandle, hg, hE, hs]
    | some e =>
      by_cases hc : cfg.max ≤ e.count
      · simp [rateLimiterHandle, hg, hE, hc] at h
      · cases hi : st.failIncr with
        | true => simp [rateLimiterHandle, hg, hE, hc, hi]
        | false => simp [rateLimiterHandle, hg, hE, hc, hi]

/-- A counter store where every operation raises (Redis unreachable). -/
def downRedis : RedisState :=
  { entries := fun _ => none, failGet := true, failIncr := true, failSet := true }

/-- Witness for C6 at a concrete unreachable store. -/
theorem rateLimiter_fails_open_witness :
    (rateLimiterHandle apiRateLimiter downRedis "3.3.3.3").outcome = RLOutcome.allowed :=
  rateLimiter_fails_open apiRateLimiter downRedis "3.3.3.3" (by decide)

/-- A store holding the counter `rl:login:9.9.9.9 ↦ {count := 5, ttl := 7}`:
the login window for that IP is exhausted and 7 seconds of it remain. -/
def deniedStore : RedisState :=
  { entries := fun k => if k = "rl:login:9.9.9.9" then some { count := 5, ttl := 7 } else none,
    failGet := false, failIncr := false, failSet := false }

/-- Counterexample to claim C7: a denial whose stored counter has 7 seconds of
window TTL remaining reports `retryAfter = 300` (the full window length), not
the remaining 7 seconds. -/
theorem retryAfter_not_remaining_ttl :
    deniedStore.entries "rl:login:9.9.9.9" = some { count := 5, ttl := 7 }
    ∧ (rateLimiterHandle loginRateLimiter deniedStore "9.9.9.9").outcome =
        RLOutcome.denied "Too many login attempts, please try again after 5 minutes" 300
    ∧ (300 : Nat) ≠ 7 := by
  decide

/-- Claim C7 as amended: whenever the limiter denies a request, the reported
`retryAfter` equals the full window length in seconds,
`Math.ceil(windowMs / 1000)`, regardless of the counter's remaining TTL, and
the configured message is reported. -/
theorem retryAfter_is_full_window (cfg : RLConfig) (st : RedisState) (ip : String)
    (m : String) (r : Nat)
    (h : (rateLimiterHandle cfg st ip).outcome = RLOutcome.denied m r) :
    r = ceilSec cfg.windowMs ∧ m = cfg.message := by
  cases hg : st.failGet with
  | true => simp [rateLimiterHandle, hg] at h
  | false =>
    cases hE : st.entries (cfg.keyPrefix ++ ip) with
    | none =>
      cases hs : st.failSet with
      | true => simp [rateLimiterHandle, hg, hE, hs] at h
      | false => simp [rateLimiterHandle, hg, hE, hs] at h
    | some e =>
      by_cases hc : cfg.max ≤ e.count
      · simp only [rateLimiterHandle, hg, Bool.false_eq_true, if_false, hE, hc, if_true,
          RLOutcome.denied.injEq] at h
        exact ⟨h.2.symm, h.1.symm⟩
      · cases hi : st.failIncr with
        | true => simp [rateLimiterHandle, hg, hE, hc, hi] at h
        | false => simp [rateLimiterHandle, hg, hE, hc, hi] at h

/-- Witness for the amended C7 at the concrete exhausted counter. -/
theorem retryAfter_is_full_window_witness :
    (300 : Nat) = ceilSec loginRateLimiter.windowMs
    ∧ "Too many login attempts, please try again after 5 minutes" = loginRateLimiter.message :=
  retryAfter_is_full_window loginRateLimiter deniedStore "9.9.9.9"
    "Too many login attempts, please try again after 5 minutes" 300 (by decide)

/-- Counterexample to claim C3: on a key with no counter, the limiter issues
two separate Redis commands — a GET followed by a SET-with-TTL — not one
single atomic increment-with-TTL operation. -/
theorem rateLimiter_not_atomic :
    (rateLimiterHandle apiRateLimiter emptyRedis "1.2.3.4").trace =
      [RedisOp.get "rl:api:1.2.3.4", RedisOp.setEx "rl:api:1.2.3.4" 1 60]
    ∧ (rateLimiterHandle apiRateLimiter emptyRedis "1.2.3.4").trace.length ≠ 1 := by
  decide

/-- Claim C3 as amended: every limiter invocation begins with a separate read
(GET) of the counter key; any write is a distinct second command — a
SET-with-TTL creating `count = 1` when the key is absent (an INCR when it is
present and under the maximum) — so the existence check and the increment are
a read followed by a conditional write, not a single atomic operation. -/
theorem rateLimiter_read_then_conditional_write (cfg : RLConfig) (st : RedisState)
    (ip : String) :
    (rateLimiterHandle cfg st ip).trace.head? = some (RedisOp.get (cfg.keyPrefix ++ ip))
    ∧ (rateLimiterHandle cfg st ip).trace.length ≤ 2
    ∧ (st.failGet = false → st.entries (cfg.keyPrefix ++ ip) = none →
        (rateLimiterHandle cfg st ip).trace =
          [RedisOp.get (cfg.keyPrefix ++ ip),
           RedisOp.setEx (cfg.keyPrefix ++ ip) 1 (ceilSec cfg.windowMs)]) := by
  refine ⟨?_, ?_, ?_⟩
  case refine_3 =>
    intro hg he
    cases hs : st.failSet with
    | true => simp [rateLimiterHandle, hg, he, hs]
    | false => simp [rateLimiterHandle, hg, he, hs]
  all_goals
    cases hg : st.failGet with
    | true => simp [rateLimiterHandle, hg]
    | false =>
      cases hE : st.entries (cfg.keyPrefix ++ ip) with
      | none =>
        cases hs : st.failSet with
        | true => simp [rateLimiterHandle, hg, hE, hs]
        | false => simp [rateLimiterHandle, hg, hE, hs]
      | some e =>
        by_cases hc : cfg.max ≤ e.count
        · simp [rateLimiterHandle, hg, hE, hc]
        · cases hi : st.failIncr with
          | true => simp [rateLimiterHandle, hg, hE, hc, hi]
          | false => simp [rateLimiterHandle, hg, hE, hc, hi]

/-- Witness for the amended C3 on a fresh key. -/
theorem rateLimiter_read_then_conditional_write_witness :
    (rateLimiterHandle apiRateLimiter emptyRedis "1.2.3.4").trace =
      [RedisOp.get "rl:api:1.2.3.4", RedisOp.setEx "rl:api:1.2.3.4" 1 60] :=
  (rateLimiter_read_then_conditional_write apiRateLimiter emptyRedis "1.2.3.4").2.2
    rfl rfl

/-- Counterexample to claim C8: the pre-configured login limiter's window is
5 minutes (300000 ms), not the claimed 15 minutes (900000 ms). -/
theorem loginLimiter_window_counterexample :
    loginRateLimiter.windowMs = 5 * 60 * 1000
    ∧ loginRateLimiter.windowMs ≠ 15 * 60 * 1000 := by
  decide

/-- Claim C8 as amended: of the three pre-configured limiters in
`rateLimiter.js`, login allows 5 per 5-minute window, password reset 3 per
1-hour window and general API 60 per 1-minute window; the separate
express-rate-limit `loginLimiter` in `manager-auth.js` is the one configured
at 5 per 15-minute window. -/
theorem limiter_configurations :
    loginRateLimiter.windowMs = 5 * 60 * 1000 ∧ loginRateLimiter.max = 5
    ∧ passwordResetRateLimiter.windowMs = 60 * 60 * 1000 ∧ passwordResetRateLimiter.max = 3
    ∧ apiRateLimiter.windowMs = 60 * 1000 ∧ apiRateLimiter.max = 60
    ∧ managerLoginLimiter.windowMs = 15 * 60 * 1000 ∧ managerLoginLimiter.max = 5 := by
  decide

/-- One limiter invocation preserves the counter bound when `1 ≤ max`. -/
theorem rl_step_maxInv (cfg : RLConfig) (hmax : 1 ≤ cfg.max) (st : RedisState)
    (ip : String) (hinv : maxInv cfg st) :
    maxInv cfg (rateLimiterHandle cfg st ip).state := by
  cases hg : st.failGet with
  | true => simpa [rateLimiterHandle, hg] using hinv
  | false =>
    cases hE : st.entries (cfg.keyPrefix ++ ip) with
    | none =>
      cases hs : st.failSet with
      | true => simpa [rateLimiterHandle, hg, hE, hs] using hinv
      | false =>
        simp only [rateLimiterHandle, hg, Bool.false_eq_true, if_false, hE, hs]
        intro k e hk
        simp only [setEntry] at hk
        split at hk
        · cases hk
          exact hmax
        · exact hinv k e hk
    | some entry =>
      by_cases hc : cfg.max ≤ entry.count
      · simpa [rateLimiterHandle, hg, hE, hc] using hinv
      · cases hi : st.failIncr with
        | true => simpa [rateLimiterHandle, hg, hE, hc, hi] using hinv
        | false =>
          simp only [rateLimiterHandle, hg, Bool.false_eq_true, if_false, hE, hc, hi,
            if_neg hc]
          intro k e hk
          simp only [setEntry] at hk
          split at hk
          · cases hk
            exact Nat.lt_of_not_le hc
          · exact hinv k e hk

/-- Claim C10: a denied request leaves the counter store untouched, and under
sequential execution starting from any store satisfying the bound (in
particular the empty store), no stored count ever exceeds the configured
maximum. -/
theorem rateLimiter_denied_frame_and_bound (cfg : RLConfig) (hmax : 1 ≤ cfg.max) :
    (∀ st ip m r, (rateLimiterHandle cfg st ip).outcome = RLOutcome.denied m r →
      (rateLimiterHandle cfg st ip).state = st)
    ∧ (∀ st, maxInv cfg st → ∀ ips, maxInv cfg (runSeq cfg ips st)) := by
  constructor
  · intro st ip m r h
    cases hg : st.failGet with
    | true => simp [rateLimiterHandle, hg] at h
    | false =>
      cases hE : st.entries (cfg.keyPrefix ++ ip) with
      | none =>
        cases hs : st.failSet with
        | true => simp [rateLimiterHandle, hg, hE, hs] at h
        | false => simp [rateLimiterHandle, hg, hE, hs] at h
      | some e =>
        by_cases hc : cfg.max ≤ e.count
        · simp [rateLimiterHandle, hg, hE, hc]
        · cases hi : st.failIncr with
          | true => simp [rateLimiterHandle, hg, hE, hc, hi] at h
          | false => simp [rateLimiterHandle, hg, hE, hc, hi] at h
  · intro st hinv ips
    induction ips generalizing st with
    | nil => exact hinv
    | cons ip rest ih =>
      exact ih _ (rl_step_maxInv cfg hmax st ip hinv)

/-- Witness for C10: the API limiter, run sequentially from the empty store,
keeps every counter at or below its maximum. -/
theorem rateLimiter_bound_witness :
    maxInv apiRateLimiter (runSeq apiRateLimiter ["1.1.1.1", "1.1.1.1"] emptyRedis) :=
  (rateLimiter_denied_frame_and_bound apiRateLimiter (by decide)).2 emptyRedis
    (fun k e hk => by simp [emptyRedis] at hk) ["1.1.1.1", "1.1.1.1"]

/-! ## Theorems: audit / security-event pipeline -/

/-- Claim C1 fails on the code: the failure paths of both login handlers
record actions (`"FAILED_LOGIN"`, `"MANAGER_LOGIN_FAILED"`) that are not in
the pipeline's significant set — which instead contains the never-emitted
spelling `"LOGIN_FAILED"` — so even with every store operation succeeding,
a failed-login audit event is neither pushed onto the ring buffer nor
published on the notification channel. -/
theorem failed_login_actions_not_significant :
    loginAuditAction none true = some "FAILED_LOGIN"
    ∧ loginAuditAction (some { id := 4, isActive := false, isApproved := true }) true =
        some "FAILED_LOGIN"
    ∧ loginAuditAction (some { id := 4, isActive := true, isApproved := true }) false =
        some "FAILED_LOGIN"
    ∧ managerLoginAuditAction (some { id := 5, isActive := true, isApproved := true }) false =
        some "MANAGER_LOGIN_FAILED"
    ∧ ¬ ("FAILED_LOGIN" ∈ significantActions)
    ∧ ¬ ("MANAGER_LOGIN_FAILED" ∈ significantActions)
    ∧ "LOGIN_FAILED" ∈ significantActions
    ∧ (createAuditLog (allOkEnv 1) emptyAudit "FAILED_LOGIN" none).1 = some 1
    ∧ (createAuditLog (allOkEnv 1) emptyAudit "FAILED_LOGIN" none).2.buffer = []
    ∧ (createAuditLog (allOkEnv 1) emptyAudit "FAILED_LOGIN" none).2.published = [] := by
  decide

/-- Counterexample to claim C4: with the durable insert succeeding but the
publish step raising, `createAuditLog` returns `null` even though the durable
write succeeded — the single `try`/`catch` swallows the publish failure into
the `null` return. -/
theorem createAuditLog_null_despite_durable_write :
    (createAuditLog (pubFailEnv 3) emptyAudit "SECURITY_ALERT" none).1 = none
    ∧ (createAuditLog (pubFailEnv 3) emptyAudit "SECURITY_ALERT" none).2.log =
        [{ id := 3, action := "SECURITY_ALERT", userId := none }] := by
  decide

/-- Claim C4 as amended: `createAuditLog` never raises; it returns the new id
exactly when the insert succeeds and, for a significant action, the
ring-buffer push, trim and publish steps all succeed as well; any failure
makes it return `null`. A failed insert leaves all state unchanged, while a
successful insert appends the event durably even when a later step fails. -/
theorem createAuditLog_result_characterization (env : AuditEnv) (st : AuditState)
    (action : String) (userId : Option Nat) :
    ((createAuditLog env st action userId).1 =
      if env.insertOk = true ∧ (action ∈ significantActions →
          env.lpushOk = true ∧ env.ltrimOk = true ∧ env.publishOk = true)
      then some env.nextId else none)
    ∧ (env.insertOk = false → (createAuditLog env st action userId).2 = st)
    ∧ (env.insertOk = true → (createAuditLog env st action userId).2.log =
        st.log ++ [{ id := env.nextId, action := action, userId := userId }]) := by
  by_cases hm : action ∈ significantActions <;>
  cases hI : env.insertOk <;>
  cases hL : env.lpushOk <;>
  cases hT : env.ltrimOk <;>
  cases hP : env.publishOk <;>
  simp [createAuditLog, hm, hI, hL, hT, hP]

/-- Witness for the amended C4: the all-success environment returns the id and
appends the durable row. -/
theorem createAuditLog_result_characterization_witness :
    (createAuditLog (allOkEnv 5) emptyAudit "LOGIN" none).2.log =
      emptyAudit.log ++ [{ id := 5, action := "LOGIN", userId := none }] :=
  (createAuditLog_result_characterization (allOkEnv 5) emptyAudit "LOGIN" none).2.2 rfl

/-- Claim C9: when `record` is called with a significant action and the
durable insert, ring-buffer push and trim all complete, then for every prior
buffer state the buffer afterwards is the new event consed onto the old
buffer truncated to 100 entries: exactly one new entry, at the head, and the
length never exceeds 100. -/
theorem audit_buffer_one_new_entry_bounded (env : AuditEnv) (st : AuditState)
    (action : String) (userId : Option Nat)
    (h1 : env.insertOk = true) (h2 : action ∈ significantActions)
    (h3 : env.lpushOk = true) (h4 : env.ltrimOk = true) :
    (createAuditLog env st action userId).2.buffer =
      (({ id := env.nextId, action := action, userId := userId } : AuditEvent)
        :: st.buffer).take 100
    ∧ (createAuditLog env st action userId).2.buffer.length ≤ 100
    ∧ (createAuditLog env st action userId).2.buffer.head? =
        some { id := env.nextId, action := action, userId := userId } := by
  have hbuf : (createAuditLog env st action userId).2.buffer =
      (({ id := env.nextId, action := action, userId := userId } : AuditEvent)
        :: st.buffer).take 100 := by
    cases hp : env.publishOk <;> simp [createAuditLog, h1, h2, h3, h4, hp]
  refine ⟨hbuf, ?_, ?_⟩
  · rw [hbuf, List.length_take]
    exact min_le_left _ _
  · rw [hbuf]
    rfl

/-- Witness for C9: a significant event recorded into a concrete prior buffer
(with the publish step failing, which does not affect the buffer). -/
theorem audit_buffer_one_new_entry_bounded_witness :
    (createAuditLog (pubFailEnv 7) emptyAudit "SECURITY_ALERT" none).2.buffer =
      (({ id := 7, action := "SECURITY_ALERT", userId := none } : AuditEvent)
        :: emptyAudit.buffer).take 100
    ∧ (createAuditLog (pubFailEnv 7) emptyAudit "SECURITY_ALERT" none).2.buffer.length ≤ 100
    ∧ (createAuditLog (pubFailEnv 7) emptyAudit "SECURITY_ALERT" none).2.buffer.head? =
        some { id := 7, action := "SECURITY_ALERT", userId := none } :=
  audit_buffer_one_new_entry_bounded (pubFailEnv 7)
    emptyAudit "SECURITY_ALERT" none rfl (by decide) rfl rfl

/-! ## Theorems: sessions and refresh -/

/-- An access token signed at time 0: `exp = 900`. -/
def tok0 : Jwt := { userId := 1, role := none, exp := 900, secret := accessSecret }

/-- Counterexample to claim C2: a cryptographically valid access token issued
at time 0 (expiry 900) hits the socket-handshake path at time 600 with a cold
cache; the middleware re-caches its Session Record with a full fresh
900-second TTL, so the record expires at 1500 — 600 seconds after the access
assertion it is keyed by — instead of carrying the remaining 300-second
lifetime. -/
theorem socket_recache_outlives_assertion :
    (socketAuthMiddleware emptyCache 600 (some tok0)).1 = SocketAuthResult.ok 1 none
    ∧ (socketAuthMiddleware emptyCache 600 (some tok0)).2 tok0 =
        some { record := { userId := 1, role := none, extra := "" }, expiresAt := 1500 }
    ∧ tok0.exp = 900
    ∧ (900 : Nat) < 1500 := by
  decide

/-- Claim C2 as amended: `createSession` writes the Session Record with a
cache expiry equal to the access assertion's embedded expiry (both
`now + 900`), so at creation the two are identical; but the socket-handshake
re-cache path writes a full fresh 900-second TTL whenever it re-caches after
a cache miss, regardless of the assertion's remaining lifetime, so a
re-cached record can outlive its assertion. -/
theorem session_ttl_creation_vs_socket_recache (now userId : Nat)
    (role : Option String) (extra : String) (cache : Cache) (t : Jwt)
    (hmiss : cacheGet cache t now = none)
    (hok : jwtVerify t accessSecret now = some t) :
    ((createSession now userId role extra cache).2
        (createSession now userId role extra cache).1.accessToken =
      some { record := { userId := userId, role := role, extra := extra },
             expiresAt := now + 900 })
    ∧ (createSession now userId role extra cache).1.accessToken.exp = now + 900
    ∧ ((socketAuthMiddleware cache now (some t)).2 t =
        some { record := { userId := t.userId, role := t.role, extra := "" },
               expiresAt := now + 900 }) := by
  refine ⟨?_, rfl, ?_⟩
  · simp [createSession, cacheSet, jwtSign]
  · simp [socketAuthMiddleware, hmiss, hok, cacheSet]

/-- Witness for the amended C2 at a concrete cold cache and valid token. -/
theorem session_ttl_creation_vs_socket_recache_witness :
    ((createSession 600 2 (some "admin") "" emptyCache).2
        (createSession 600 2 (some "admin") "" emptyCache).1.accessToken =
      some { record := { userId := 2, role := some "admin", extra := "" },
             expiresAt := 1500 })
    ∧ (createSession 600 2 (some "admin") "" emptyCache).1.accessToken.exp = 1500
    ∧ ((socketAuthMiddleware emptyCache 600 (some tok0)).2 tok0 =
        some { record := { userId := 1, role := none, extra := "" },
               expiresAt := 1500 }) :=
  session_ttl_creation_vs_socket_recache 600 2 (some "admin") "" emptyCache tok0
    rfl (by decide)

/-- Claim C5: a refresh assertion whose embedded expiry is past makes
`sessionManager.refreshSession` throw `Invalid refresh token` (minting no new
access assertion and writing no Session Record), and makes the manager
refresh route respond 401 with no minted token and an unchanged session
cache — regardless of whether a matching row still exists in the
`refresh_tokens` ledger. -/
theorem refreshSession_expired_fails (now : Nat) (tok : Jwt) (role : Option String)
    (extra : String) (cache : Cache) (ledger : List RefreshRow)
    (users : List RouteUser) (hexp : tok.exp ≤ now) :
    refreshSession now tok role extra cache = Except.error "Invalid refresh token"
    ∧ (managerRefreshRoute now ledger users cache tok).1 =
        ({ status := 401, minted := none } : RefreshResponse)
    ∧ (managerRefreshRoute now ledger users cache tok).2.1 = cache := by
  have hv : jwtVerify tok refreshSecret now = none := by
    unfold jwtVerify
    rw [if_neg]
    rintro ⟨-, hlt⟩
    exact absurd hlt (Nat.not_lt.mpr hexp)
  refine ⟨?_, ?_, ?_⟩
  · simp [refreshSession, hv]
  · unfold managerRefreshRoute
    split
    · rfl
    · simp [hv]
  · unfold managerRefreshRoute
    split
    · rfl
    · simp [hv]

/-- An expired refresh token (signed at 0 with a 900-second life, checked at
time 1000 in the witness below). -/
def expiredRefreshTok : Jwt :=
  { userId := 1, role := none, exp := 900, secret := refreshSecret }

/-- Witness for C5: the expired refresh token is rejected even though the
ledger still physically holds a matching, unexpired row. -/
theorem refreshSession_expired_fails_witness :
    refreshSession 1000 expiredRefreshTok (some "manager") "" emptyCache =
      Except.error "Invalid refresh token"
    ∧ (managerRefreshRoute 1000
        [{ userId := 1, token := expiredRefreshTok, expiresAt := 5000 }]
        [{ id := 1, role := "manager", isActive := true, isApproved := true }]
        emptyCache expiredRefreshTok).1 =
        ({ status := 401, minted := none } : RefreshResponse)
    ∧ (managerRefreshRoute 1000
        [{ userId := 1, token := expiredRefreshTok, expiresAt := 5000 }]
        [{ id := 1, role := "manager", isActive := true, isApproved := true }]
        emptyCache expiredRefreshTok).2.1 = emptyCache :=
  refreshSession_expired_fails 1000 expiredRefreshTok (some "manager") "" emptyCache
    [{ userId := 1, token := expiredRefreshTok, expiresAt := 5000 }]
    [{ id := 1, role := "manager", isActive := true, isApproved := true }]
    (by decide)

end LwieDashboard
